import Mathlib

/-!
Shallow embedding of the driver `run_BnpC.py` of the BnpC repository.

The embedding models, from the source:
  * the argparse type-checker functions `check_ratio`, `check_percent`,
    `check_PSRF_cutoff` (lines 17-36) and how argparse applies them
    (the `type` function runs only on user-supplied string values;
    non-string defaults bypass it);
  * the `store_false` semantics of the `--transpose` flag (lines 51-54);
  * the all-missing-column filter in `main` (lines 270-273);
  * the derivation of the CRP concentration prior `DP_alpha`
    (lines 276-286);
  * the fixed-vs-learned error model selection and the forcing of
    `error_update_prob` to 0 (lines 288-301, 306-310);
  * the debug-mode chain count override and forwarding (lines 317-323).

Real numbers in the python code are modelled as rationals: every
comparison performed by the driver is against exactly representable
constants, so the embedding is faithful on the decisions taken.
Missing matrix entries (NaN after loading) are modelled as `none`.
-/

-- ---------------------------------------------------------------------------
-- Argparse type checkers (run_BnpC.py lines 17-36)
-- ---------------------------------------------------------------------------

/-- `check_ratio` (lines 17-22): rejects values with `val <= 0 or val >= 1`. -/
def check_ratio (val : ℚ) : Except String ℚ :=
  if val ≤ 0 ∨ 1 ≤ val then
    Except.error "Invalid value: values need to be 0 < x < 1"
  else
    Except.ok val

/-- `check_percent` (lines 24-29): rejects values with `val < 0 or val > 1`. -/
def check_percent (val : ℚ) : Except String ℚ :=
  if val < 0 ∨ 1 < val then
    Except.error "Invalid value: values need to be 0 <= x <= 1"
  else
    Except.ok val

/-- `check_PSRF_cutoff` (lines 31-36): rejects values with
`val < 1 or val > 1.5`. -/
def check_PSRF_cutoff (val : ℚ) : Except String ℚ :=
  if val < 1 ∨ 3/2 < val then
    Except.error "Invalid value: values need to be 1 <= x <= 1.5"
  else
    Except.ok val

/-- Argparse semantics for an option with a `type` checker: the checker runs
only on a user-supplied value; when the option is omitted the (non-string)
default is used verbatim, bypassing the checker. -/
def parseOpt (check : ℚ → Except String ℚ) (dflt : ℚ) :
    Option ℚ → Except String ℚ
  | none => Except.ok dflt
  | some v => check v

/-- `-b, --burn_in` (lines 130-134): `type=check_percent, default=0.33`. -/
def parseBurnIn : Option ℚ → Except String ℚ :=
  parseOpt check_percent (33/100)

/-- `-cup, --conc_update_prob` (lines 135-139): `type=check_percent,
default=0.25`. -/
def parseConcUpdateProb : Option ℚ → Except String ℚ :=
  parseOpt check_percent (1/4)

/-- `-eup, --error_update_prob` (lines 140-144): `type=check_percent,
default=0.25`. -/
def parseErrorUpdateProb : Option ℚ → Except String ℚ :=
  parseOpt check_percent (1/4)

/-- `-smp, --split_merge_prob` (lines 145-149): `type=check_percent,
default=0.33`. -/
def parseSplitMergeProb : Option ℚ → Except String ℚ :=
  parseOpt check_percent (33/100)

/-- `-smr, --split_merge_ratios` (lines 155-158): `type=check_percent,
nargs=2, default=[0.75, 0.25]`; argparse applies the type checker to each
of the two supplied values. -/
def parseSplitMergeRatios : Option (ℚ × ℚ) → Except String (ℚ × ℚ)
  | none => Except.ok (3/4, 1/4)
  | some (a, b) => do
      let a2 ← check_percent a
      let b2 ← check_percent b
      Except.ok (a2, b2)

/-- `-ls, --lugsail` (lines 124-129): `type=check_PSRF_cutoff, default=-1`.
The integer default `-1` bypasses the checker; a user-supplied value goes
through `check_PSRF_cutoff`. -/
def parseLugsail : Option ℚ → Except String ℚ :=
  parseOpt check_PSRF_cutoff (-1)

/-- `-FN, --falseNegative` and `-FP, --falsePositive` (lines 69-76):
`type=float, default=-1` — a plain float conversion with no range check. -/
def parseFloatArg (dflt : ℚ) (o : Option ℚ) : ℚ :=
  o.getD dflt

/-- Helper predicate: an `Except` result is a rejection. -/
def isRejected {α : Type} : Except String α → Bool
  | Except.error _ => true
  | Except.ok _ => false

/-- Modelled from the spec: `io._get_mcmc_termination` lives in
`libs/dpmmIO`, which is not among the provided sources; per the spec, a
lugsail cutoff of −1 disables the convergence diagnostic and chains run to
their step/runtime limit unconditionally. -/
def diagnosticDisabled (cutoff : ℚ) : Bool :=
  cutoff == -1

-- ---------------------------------------------------------------------------
-- Transpose flag (run_BnpC.py lines 51-54)
-- ---------------------------------------------------------------------------

/-- `-t, --transpose` is declared with `action='store_false'` (lines 51-54):
argparse gives it default `True`, and passing the flag stores `False`. -/
def transposeFlag (flagPresent : Bool) : Bool :=
  if flagPresent then false else true

-- ---------------------------------------------------------------------------
-- All-missing mutation-column filter (run_BnpC.py lines 270-273)
-- ---------------------------------------------------------------------------

/-- One row of the loaded matrix: a cell's values over the mutation sites,
`none` standing for a missing entry (NaN). -/
abbrev DataRow : Type := List (Option ℚ)

/-- `np.isfinite(data).mean(axis=0) > 0` (line 270), column by column: the
column mean of the finiteness indicator is positive exactly when at least
one entry of the column is finite (non-missing). `m` is the column count. -/
def relMuts (data : List DataRow) (m : ℕ) : List Bool :=
  (List.range m).map (fun j => data.any (fun row => (row.getD j none).isSome))

/-- Numpy boolean-mask column selection `row[mask]`: keep the entries of
`row` at the positions where `mask` holds. -/
def selectCols {α : Type} : List Bool → List α → List α
  | b :: ms, a :: rs =>
      if b then a :: selectCols ms rs else selectCols ms rs
  | _, _ => []

/-- `data[:, rel_muts]` (lines 271-272): apply the column mask to every row. -/
def filterData (mask : List Bool) (data : List DataRow) : List DataRow :=
  data.map (selectCols mask)

-- ---------------------------------------------------------------------------
-- DP_alpha derivation (run_BnpC.py lines 276-286)
-- ---------------------------------------------------------------------------

/-- The concentration prior that `main` constructs. Symbolic constructors
keep the square roots exact: `cancer n` stands for `(sqrt(n) - 5, 1)` and
`cells n` for `(sqrt(n), 1)`. -/
inductive DPAlphaResult : Type where
  | user (a b : ℚ)
  | cancer (n : ℕ)
  | cells (n : ℕ)
  deriving DecidableEq, Repr

/-- The numeric prior pair a symbolic result denotes. Stated as a relation
because exact real square roots carry no executable code. -/
def DPAlphaResult.denotes : DPAlphaResult → ℝ × ℝ → Prop
  | DPAlphaResult.user a b, p => p = ((a : ℝ), (b : ℝ))
  | DPAlphaResult.cancer n, p => p = (Real.sqrt n - 5, 1)
  | DPAlphaResult.cells n, p => p = (Real.sqrt n, 1)

/-- Lines 276-286 of `main`. `prior` is `args.DPa_prior`; `corrected` is the
`Corrected` column of the (filtered) cell-type table, `none` when the column
is absent (pandas raises `KeyError`, caught at line 280); `nCells` is
`data.shape[0]`. When either prior component is negative the default is
derived: `sqrt(#cancer cells) - 5` if the `Corrected` column exists
(`cancer_cells_total = len(ctypes_df[ctypes_df['Corrected']=='Cancer'])`),
else `sqrt(#cells)`; both with second component 1. -/
def derive_DP_alpha (prior : ℚ × ℚ) (corrected : Option (List String))
    (nCells : ℕ) : DPAlphaResult :=
  if prior.1 < 0 ∨ prior.2 < 0 then
    match corrected with
    | none => DPAlphaResult.cells nCells
    | some col => DPAlphaResult.cancer (col.countP (fun s => s == "Cancer"))
  else
    DPAlphaResult.user prior.1 prior.2

-- ---------------------------------------------------------------------------
-- Error model selection and MCMC arguments (run_BnpC.py lines 288-310)
-- ---------------------------------------------------------------------------

/-- The model object built in `main`: `CRP.CRP(data, ..., FN_error, FP_error)`
in fixed-error mode, `CRP.CRP_errors_learning(data, ..., FP_mean, FP_sd,
FN_mean, FN_sd)` in learning mode. Only the error-rate arguments are carried
here; the data and the other priors are common to both branches. -/
inductive ModelInit : Type where
  | fixedErrors (fn fp : ℚ)
  | learnedErrors (fpMean fpSd fnMean fnSd : ℚ)
  deriving DecidableEq, Repr

/-- Lines 288-301: `if args.falsePositive >= 0 and args.falseNegative >= 0`
the fixed-error `CRP` is built from `falseNegative`/`falsePositive`;
otherwise `CRP_errors_learning` is built from the four Beta-prior
mean/standard-deviation options only. -/
def selectModel (fn fp fpMean fpSd fnMean fnSd : ℚ) : ModelInit :=
  if 0 ≤ fp ∧ 0 ≤ fn then
    ModelInit.fixedErrors fn fp
  else
    ModelInit.learnedErrors fpMean fpSd fnMean fnSd

/-- Lines 288-289 and 306-310: the `error_prob` handed to the `MCMC`
constructor. When both fixed rates are supplied (`falsePositive >= 0 and
falseNegative >= 0`), line 289 sets `args.error_update_prob = 0` before the
`MCMC` object reads it at line 308. -/
def mcmcErrorProb (fp fn errorUpdateProb : ℚ) : ℚ :=
  if 0 ≤ fp ∧ 0 ≤ fn then 0 else errorUpdateProb

-- ---------------------------------------------------------------------------
-- Debug-mode chain handling (run_BnpC.py lines 317-323)
-- ---------------------------------------------------------------------------

/-- Lines 317-318: `if args.debug: args.chains = 1`. -/
def mcmcRunChains (debug : Bool) (chains : ℕ) : ℕ :=
  if debug then 1 else chains

/-- The `(chains, debug)` pair that `mcmc.run` receives at lines 320-323:
the (possibly overridden) chain count together with the forwarded debug
flag. -/
def mcmcRunCall (debug : Bool) (chains : ℕ) : ℕ × Bool :=
  (mcmcRunChains debug chains, debug)

-- ---------------------------------------------------------------------------
-- Helper lemmas
-- ---------------------------------------------------------------------------

theorem selectCols_length {α : Type} :
    ∀ (mask : List Bool) (row : List α), row.length = mask.length →
      (selectCols mask row).length = mask.count true := by
  intro mask
  induction mask with
  | nil =>
      intro row h
      cases row with
      | nil => simp [selectCols]
      | cons a rs => simp at h
  | cons b ms ih =>
      intro row h
      cases row with
      | nil => simp at h
      | cons a rs =>
          have h2 : rs.length = ms.length := by simpa using h
          have := ih rs h2
          cases b with
          | false => simpa [selectCols, List.count_cons] using this
          | true => simp [selectCols, List.count_cons, this]

theorem relMuts_length (data : List DataRow) (m : ℕ) :
    (relMuts data m).length = m := by
  simp [relMuts]

theorem relMuts_getD (data : List DataRow) (m j : ℕ) (hj : j < m) :
    (relMuts data m).getD j false =
      data.any (fun row => (row.getD j none).isSome) := by
  have hlt : j < (relMuts data m).length := by rw [relMuts_length]; exact hj
  rw [List.getD_eq_getElem _ _ hlt]
  simp [relMuts]

-- ---------------------------------------------------------------------------
-- Claim theorems
-- ---------------------------------------------------------------------------

/-- C1: if both fixed error rates are supplied (`falsePositive >= 0` and
`falseNegative >= 0`), the error-rate update probability handed to the MCMC
sampler is forced to 0, whatever `--error_update_prob` the user supplied. -/
theorem C1_error_update_prob_forced_zero (fp fn eup : ℚ)
    (hfp : 0 ≤ fp) (hfn : 0 ≤ fn) :
    mcmcErrorProb fp fn eup = 0 := by
  simp [mcmcErrorProb, hfp, hfn]

theorem C1_error_update_prob_forced_zero_witness :
    (0 : ℚ) ≤ 1/10 ∧ (0 : ℚ) ≤ 2/10 ∧ mcmcErrorProb (1/10) (2/10) (1/4) = 0 :=
  ⟨by norm_num, by norm_num,
    C1_error_update_prob_forced_zero (1/10) (2/10) (1/4) (by norm_num)
      (by norm_num)⟩

/-- C7: with the debug flag set, the chain count handed to `mcmc.run` is 1
regardless of the configured chain count, and the debug flag itself is
forwarded. -/
theorem C7_debug_forces_single_chain (chains : ℕ) :
    mcmcRunCall true chains = (1, true) := by
  simp [mcmcRunCall, mcmcRunChains]

/-- C10: `--transpose` has `store_false` semantics — omitting the flag
yields `transpose = True`, passing it yields `transpose = False`. -/
theorem C10_transpose_store_false :
    transposeFlag false = true ∧ transposeFlag true = false := by
  simp [transposeFlag]

/-- C8: if at least one of the two fixed error rates is negative, the
learning-mode model is constructed from the four Beta-prior mean/sd options
only; the remaining fixed rate does not appear in the construction. -/
theorem C8_single_fixed_rate_ignored
    (fn fp fpMean fpSd fnMean fnSd : ℚ) (h : fn < 0 ∨ fp < 0) :
    selectModel fn fp fpMean fpSd fnMean fnSd =
      ModelInit.learnedErrors fpMean fpSd fnMean fnSd := by
  have hc : ¬ (0 ≤ fp ∧ 0 ≤ fn) := by
    rintro ⟨h1, h2⟩
    rcases h with h | h <;> linarith
  simp [selectModel, hc]

theorem C8_single_fixed_rate_ignored_witness :
    ((-1 : ℚ) < 0 ∨ (1/2 : ℚ) < 0) ∧
    selectModel (-1) (1/2) (1/100) (1/100) (1/5) (1/10) =
      ModelInit.learnedErrors (1/100) (1/100) (1/5) (1/10) :=
  ⟨Or.inl (by norm_num),
    C8_single_fixed_rate_ignored (-1) (1/2) (1/100) (1/100) (1/5) (1/10)
      (Or.inl (by norm_num))⟩

/-- C5 counterexample: a fixed false-negative rate of 1.5 is accepted by the
plain float parser, selects fixed-error mode together with FP = 0.5, and is
passed to the model even though it lies outside [0, 1] — refuting the claim
that out-of-range fixed rates are rejected before model construction. -/
theorem C5_counterexample :
    parseFloatArg (-1) (some (3/2)) = 3/2 ∧
    selectModel (3/2) (1/2) (1/100) (1/100) (1/5) (1/10) =
      ModelInit.fixedErrors (3/2) (1/2) ∧
    ¬ ((3/2 : ℚ) ≤ 1) := by
  refine ⟨rfl, ?_, by norm_num⟩
  norm_num [selectModel]

/-- C5 amended: the fixed error rates are parsed without any range check;
whenever both are nonnegative, fixed-error mode is selected and the rates
are handed to the model unchanged, even when they exceed 1. -/
theorem C5_amended_rates_passed_unchecked
    (fn fp fpMean fpSd fnMean fnSd : ℚ) (hfp : 0 ≤ fp) (hfn : 0 ≤ fn) :
    selectModel fn fp fpMean fpSd fnMean fnSd =
      ModelInit.fixedErrors fn fp := by
  simp [selectModel, hfp, hfn]

theorem C5_amended_rates_passed_unchecked_witness :
    (0 : ℚ) ≤ 1/2 ∧ (0 : ℚ) ≤ 3/2 ∧
    selectModel (3/2) (1/2) (1/100) (1/100) (1/5) (1/10) =
      ModelInit.fixedErrors (3/2) (1/2) :=
  ⟨by norm_num, by norm_num,
    C5_amended_rates_passed_unchecked (3/2) (1/2) (1/100) (1/100) (1/5)
      (1/10) (by norm_num) (by norm_num)⟩

/-- C6: when the default concentration prior must be derived and the
cell-type table lacks the `Corrected` column (the `KeyError` branch), the
prior falls back to `(sqrt(#cells), 1)`. -/
theorem C6_keyerror_fallback (prior : ℚ × ℚ) (nCells : ℕ)
    (h : prior.1 < 0 ∨ prior.2 < 0) :
    derive_DP_alpha prior none nCells = DPAlphaResult.cells nCells ∧
    (derive_DP_alpha prior none nCells).denotes (Real.sqrt nCells, 1) := by
  have h1 : derive_DP_alpha prior none nCells = DPAlphaResult.cells nCells := by
    unfold derive_DP_alpha
    rw [if_pos h]
  refine ⟨h1, ?_⟩
  rw [h1]
  rfl

theorem C6_keyerror_fallback_witness :
    (((-1 : ℚ), (1 : ℚ)).1 < 0 ∨ ((-1 : ℚ), (1 : ℚ)).2 < 0) ∧
    (derive_DP_alpha (-1, 1) none 9 = DPAlphaResult.cells 9 ∧
     (derive_DP_alpha (-1, 1) none 9).denotes (Real.sqrt (9 : ℕ), 1)) :=
  ⟨Or.inl (by norm_num), C6_keyerror_fallback (-1, 1) 9 (Or.inl (by norm_num))⟩

/-- C4 counterexample: an explicitly supplied lugsail cutoff of −1 is
rejected by `check_PSRF_cutoff` at the configuration boundary, refuting the
claim that a user may pass `--lugsail -1` to disable the diagnostic. -/
theorem C4_explicit_minus_one_rejected :
    parseLugsail (some (-1)) =
      Except.error "Invalid value: values need to be 1 <= x <= 1.5" := by
  norm_num [parseLugsail, parseOpt, check_PSRF_cutoff]

/-- C4 amended: −1 is the built-in default of the lugsail cutoff and, being
a non-string default, bypasses the checker; as the default it disables the
convergence diagnostic. An explicitly supplied −1 is rejected, so the
diagnostic can only be disabled by omitting the option. -/
theorem C4_amended_default_disables_diagnostic :
    parseLugsail none = Except.ok (-1) ∧
    diagnosticDisabled (-1) = true ∧
    isRejected (parseLugsail (some (-1))) = true := by
  refine ⟨rfl, by norm_num [diagnosticDisabled], ?_⟩
  norm_num [parseLugsail, parseOpt, check_PSRF_cutoff, isRejected]

/-- C2 counterexample: with the prior left at its default and a cell-type
table carrying a `Corrected` column with four `Cancer` entries, the derived
prior is `(sqrt(4) - 5, 1) = (-3, 1)`, not `(sqrt(#cells), 1) = (3, 1)` for
the 9-cell data matrix — refuting the claim that the default prior is
always `(sqrt(#cells), 1)`. -/
theorem C2_counterexample :
    derive_DP_alpha (-1, -1)
        (some ["Cancer", "Cancer", "Cancer", "Cancer"]) 9 =
      DPAlphaResult.cancer 4 ∧
    ¬ (derive_DP_alpha (-1, -1)
        (some ["Cancer", "Cancer", "Cancer", "Cancer"]) 9).denotes
      (Real.sqrt (9 : ℕ), 1) := by
  have h1 : derive_DP_alpha (-1, -1)
      (some ["Cancer", "Cancer", "Cancer", "Cancer"]) 9 =
      DPAlphaResult.cancer 4 := by decide
  refine ⟨h1, ?_⟩
  rw [h1]
  intro hd
  have hfst : Real.sqrt (9 : ℕ) = Real.sqrt (4 : ℕ) - 5 :=
    congrArg Prod.fst hd
  have s9 : Real.sqrt ((9 : ℕ) : ℝ) = 3 := by
    rw [show ((9 : ℕ) : ℝ) = 3 ^ 2 by norm_num]
    exact Real.sqrt_sq (by norm_num)
  have s4 : Real.sqrt ((4 : ℕ) : ℝ) = 2 := by
    rw [show ((4 : ℕ) : ℝ) = 2 ^ 2 by norm_num]
    exact Real.sqrt_sq (by norm_num)
  rw [s9, s4] at hfst
  norm_num at hfst

/-- C2 amended: when either component of the configured prior is negative,
the derived prior is `(sqrt(#cells), 1)` only if the cell-type table lacks
the `Corrected` column; when the column is present, it is
`(sqrt(#cells with Corrected == Cancer) - 5, 1)`. -/
theorem C2_amended_default_prior (prior : ℚ × ℚ)
    (corrected : Option (List String)) (nCells : ℕ)
    (h : prior.1 < 0 ∨ prior.2 < 0) :
    derive_DP_alpha prior corrected nCells =
      (match corrected with
       | none => DPAlphaResult.cells nCells
       | some col =>
           DPAlphaResult.cancer (col.countP (fun s => s == "Cancer"))) := by
  unfold derive_DP_alpha
  rw [if_pos h]

theorem C2_amended_default_prior_witness :
    (((-1 : ℚ), (-1 : ℚ)).1 < 0 ∨ ((-1 : ℚ), (-1 : ℚ)).2 < 0) ∧
    derive_DP_alpha (-1, -1) (some ["Cancer", "B"]) 5 =
      DPAlphaResult.cancer 1 :=
  ⟨Or.inl (by norm_num),
    (C2_amended_default_prior (-1, -1) (some ["Cancer", "B"]) 5
      (Or.inl (by norm_num))).trans (by decide)⟩

/-- C3: every user-supplied value outside [0, 1] for the burn-in fraction,
the concentration-update probability, the error-update probability, the
split-merge probability, or either split-merge ratio is rejected at
argument parsing, and every user-supplied lugsail cutoff outside [1, 1.5]
is rejected as well. -/
theorem C3_invalid_config_rejected (v w r : ℚ)
    (hv : v < 0 ∨ 1 < v) (hw : w < 1 ∨ 3/2 < w) :
    isRejected (parseBurnIn (some v)) = true ∧
    isRejected (parseConcUpdateProb (some v)) = true ∧
    isRejected (parseErrorUpdateProb (some v)) = true ∧
    isRejected (parseSplitMergeProb (some v)) = true ∧
    isRejected (parseSplitMergeRatios (some (v, r))) = true ∧
    isRejected (parseSplitMergeRatios (some (r, v))) = true ∧
    isRejected (parseLugsail (some w)) = true := by
  have hcp : check_percent v =
      Except.error "Invalid value: values need to be 0 <= x <= 1" := by
    unfold check_percent
    rw [if_pos hv]
  have hcw : check_PSRF_cutoff w =
      Except.error "Invalid value: values need to be 1 <= x <= 1.5" := by
    unfold check_PSRF_cutoff
    rw [if_pos hw]
  refine ⟨?_, ?_, ?_, ?_, ?_, ?_, ?_⟩
  · simp [parseBurnIn, parseOpt, hcp, isRejected]
  · simp [parseConcUpdateProb, parseOpt, hcp, isRejected]
  · simp [parseErrorUpdateProb, parseOpt, hcp, isRejected]
  · simp [parseSplitMergeProb, parseOpt, hcp, isRejected]
  · simp [parseSplitMergeRatios, hcp, isRejected, bind, Except.bind]
  · cases hr : check_percent r with
    | error e => simp [parseSplitMergeRatios, hr, isRejected, bind, Except.bind]
    | ok x => simp [parseSplitMergeRatios, hr, hcp, isRejected, bind, Except.bind]
  · simp [parseLugsail, parseOpt, hcw, isRejected]

theorem C3_invalid_config_rejected_witness :
    ((2 : ℚ) < 0 ∨ (1 : ℚ) < 2) ∧ ((2 : ℚ) < 1 ∨ (3 : ℚ)/2 < 2) ∧
    (isRejected (parseBurnIn (some 2)) = true ∧
     isRejected (parseConcUpdateProb (some 2)) = true ∧
     isRejected (parseErrorUpdateProb (some 2)) = true ∧
     isRejected (parseSplitMergeProb (some 2)) = true ∧
     isRejected (parseSplitMergeRatios (some (2, 1/2))) = true ∧
     isRejected (parseSplitMergeRatios (some (1/2, 2))) = true ∧
     isRejected (parseLugsail (some 2)) = true) :=
  ⟨Or.inr (by norm_num), Or.inr (by norm_num),
    C3_invalid_config_rejected 2 2 (1/2) (Or.inr (by norm_num))
      (Or.inr (by norm_num))⟩

/-- C9: before model construction, a mutation column is dropped exactly
when all of its entries are missing, and the data matrix, the fraction
matrix and the mutation-name vector are filtered by the same column mask,
so all of their column counts equal the number of kept columns. -/
theorem C9_all_missing_columns_dropped
    (data frac : List DataRow) (names : List String) (m : ℕ)
    (hd : ∀ row ∈ data, row.length = m)
    (hf : ∀ row ∈ frac, row.length = m)
    (hn : names.length = m) :
    (∀ j, j < m →
      ((relMuts data m).getD j false = false ↔
        ∀ row ∈ data, row.getD j none = none)) ∧
    (∀ row ∈ filterData (relMuts data m) data,
      row.length = (relMuts data m).count true) ∧
    (∀ row ∈ filterData (relMuts data m) frac,
      row.length = (relMuts data m).count true) ∧
    (selectCols (relMuts data m) names).length =
      (relMuts data m).count true := by
  have hlen : (relMuts data m).length = m := relMuts_length data m
  refine ⟨?_, ?_, ?_, ?_⟩
  · intro j hj
    rw [relMuts_getD data m j hj]
    simp only [List.any_eq_false]
    constructor
    · intro h row hrow
      have := h row hrow
      simpa using this
    · intro h row hrow
      have := h row hrow
      simpa using this
  · intro row hrow
    obtain ⟨r0, hr0, rfl⟩ := List.mem_map.mp hrow
    exact selectCols_length _ _ ((hd r0 hr0).trans hlen.symm)
  · intro row hrow
    obtain ⟨r0, hr0, rfl⟩ := List.mem_map.mp hrow
    exact selectCols_length _ _ ((hf r0 hr0).trans hlen.symm)
  · exact selectCols_length _ _ (hn.trans hlen.symm)

theorem C9_all_missing_columns_dropped_witness :
    ((∀ row ∈ [[some (1 : ℚ), none], [none, none]], row.length = 2) ∧
     (∀ row ∈ [[some (1 : ℚ), some 0], [some 0, some 0]], row.length = 2) ∧
     (["m1", "m2"] : List String).length = 2) ∧
    ((∀ j, j < 2 →
      ((relMuts [[some (1 : ℚ), none], [none, none]] 2).getD j false = false ↔
        ∀ row ∈ [[some (1 : ℚ), none], [none, none]],
          row.getD j none = none)) ∧
    (∀ row ∈ filterData (relMuts [[some (1 : ℚ), none], [none, none]] 2)
        [[some (1 : ℚ), none], [none, none]],
      row.length =
        (relMuts [[some (1 : ℚ), none], [none, none]] 2).count true) ∧
    (∀ row ∈ filterData (relMuts [[some (1 : ℚ), none], [none, none]] 2)
        [[some (1 : ℚ), some 0], [some 0, some 0]],
      row.length =
        (relMuts [[some (1 : ℚ), none], [none, none]] 2).count true) ∧
    (selectCols (relMuts [[some (1 : ℚ), none], [none, none]] 2)
        ["m1", "m2"]).length =
      (relMuts [[some (1 : ℚ), none], [none, none]] 2).count true) :=
  ⟨⟨by decide, by decide, by decide⟩,
    C9_all_missing_columns_dropped
      [[some (1 : ℚ), none], [none, none]]
      [[some (1 : ℚ), some 0], [some 0, some 0]]
      ["m1", "m2"] 2 (by decide) (by decide) (by decide)⟩
